import Mathlib

/-!
Shallow embedding of `src/extensions/custom_analysis.py` (class
`CustomAnalyzer`): the schema-flexible store reader (`get_today_data`),
the idempotency gate (`has_analyzed_today`), the analysis orchestrator
(`analyze`), the presentation projector (`generate_standalone_data`) and
the publication driver (`push_analysis`).

External collaborators (sqlite, the AI engine, the notification
dispatcher, `datetime`) are modelled as explicit data or oracle
parameters; the control flow and data transformations of the Python
module itself are translated line for line.
-/

namespace CustomAnalysis

/-- A calendar date as `datetime.date` compares it: local calendar day. -/
structure Date where
  year : Nat
  month : Nat
  day : Nat
deriving DecidableEq, Repr

/-- A row of a probed store table.  The source only ever selects the
`title` column and (when present) the domain's peer label column
(`source_name` / `feed_name`), so a row is modelled by those two values
(`row[0]`, `row[1]` at lines 94-95 / 140-141). -/
structure Row where
  title : String
  label : String
deriving DecidableEq, Repr

/-- One table of a sqlite store: its name, its column list
(`cursor.description` of `SELECT * FROM t LIMIT 1`, line 85 / 131) and
its rows. -/
structure Table where
  name : String
  columns : List String
  rows : List Row
deriving DecidableEq, Repr

/-- A per-date store file: `none` when the `.db` file does not exist
(lines 67 / 113), otherwise the list of its tables. -/
abbrev Store : Type := Option (List Table)

/-- `SELECT * FROM t LIMIT 1` (line 84 / 130): succeeds exactly when the
table exists; a failure is caught and the loop moves to the next
candidate (lines 103-104 / 149-150). -/
def firstProbed (tables : List Table) : List String → Option Table
  | [] => none
  | c :: rest =>
    match tables.find? (fun t => t.name = c) with
    | some t => some t
    | none => firstProbed tables rest

/-- Lines extracted from a successfully probed table (lines 90-101 /
136-147): when a `title` column exists, each row yields `"[label] title"`
if the peer label column is also present, else the bare title; with no
`title` column nothing is extracted (and the loop still breaks, line
102 / 148). -/
def extractLines (labelCol : String) (t : Table) : List String :=
  if "title" ∈ t.columns then
    if labelCol ∈ t.columns then
      t.rows.map (fun r => "[" ++ r.label ++ "] " ++ r.title)
    else
      t.rows.map (fun r => r.title)
  else []

/-- The candidate-table loop of one store (lines 82-104 / 128-150):
probe candidates in order, extract from the first table that can be
queried, then stop. -/
def readStore (store : Store) (candidates : List String) (labelCol : String) : List String :=
  match store with
  | none => []
  | some tables =>
    match firstProbed tables candidates with
    | some t => extractLines labelCol t
    | none => []

/-- `tables_to_try` for the news store (line 79). -/
def newsCandidates : List String := ["news_items", "titles", "news", "items"]

/-- `tables_to_try` for the RSS store (line 125). -/
def rssCandidates : List String := ["rss_items", "items", "titles"]

/-- `get_today_data` (lines 58-159): news store lines first, then RSS
store lines, appended into one list. -/
def get_today_data (newsDb rssDb : Store) : List String :=
  readStore newsDb newsCandidates "source_name" ++ readStore rssDb rssCandidates "feed_name"

/-- The JSON value of the cache record (`custom_analysis.json`):
`last_analysis` is `data.get('last_analysis', '')` — absent conflates
with the empty string exactly as in Python — and `result` is
`data.get('result', ...)` with an empty-object default, a JSON object of
string fields kept as an association list (absent conflates with the
empty object). -/
structure CacheRecord where
  last_analysis : String
  result : List (String × String)
deriving DecidableEq, Repr

/-- The state of the cache file on disk: the file may be absent
(`self.analysis_file.exists()` false), hold bytes on which `json.load`
raises or a JSON value that does not behave as an object (both caught by
the surrounding `except Exception`), or hold a readable record. -/
inductive CacheFile where
  | missing : CacheFile
  | invalid : CacheFile
  | record : CacheRecord → CacheFile
deriving DecidableEq, Repr

/-- `has_analyzed_today` (lines 40-56).  `parse` is the external
`datetime.datetime.fromisoformat(·).date()`: `none` when it raises
(caught, line 55), `some d` for the timestamp's calendar date.  `today`
is `datetime.datetime.now().date()`. -/
def has_analyzed_today (parse : String → Option Date) (today : Date) :
    CacheFile → Bool
  | .missing => false
  | .invalid => false
  | .record r =>
    if r.last_analysis = "" then false
    else
      match parse r.last_analysis with
      | none => false
      | some d => decide (d = today)

/-- The default system prompt (lines 194-203). -/
def defaultSystemPrompt : String :=
  "\n你是一位专业的分析专家，请基于提供的热点新闻数据进行分析。\n\n请关注：\n1. 国际局势相关\n2. 中国大事相关\n3. 影响较大的社会新闻\n\n请直接输出分析结果，不需要特定格式。\n            "

/-- System-prompt selection (lines 187-204): the stripped text of
`prompt.txt` when that file exists, else the built-in default. -/
def select_system_prompt : Option String → String
  | some s => s.trim
  | none => defaultSystemPrompt

/-- `content_str` (line 207): the corpus truncated to its first 100
lines, joined by newlines. -/
def content_str (content : List String) : String :=
  String.intercalate "\n" (content.take 100)

/-- The user prompt f-string (lines 208-214). -/
def user_prompt (content : List String) : String :=
  "\n请基于以下热点新闻数据进行分析：\n\n" ++ content_str content ++ "\n\n请直接输出分析结果。\n        "

/-- Outcome of the external engine call `analyzer.analyze(...)` (line
232): it returns a result with `success = true` and a `core_trends`
text, returns with `success = false` and an error, or raises. -/
inductive EngineOutcome where
  | success : String → EngineOutcome
  | failure : String → EngineOutcome
  | raised : EngineOutcome
deriving DecidableEq, Repr

/-- What one run of `analyze` (lines 161-262) leaves behind.
`newFile` is the cache file after the run; `returned` the Python return
value (`analysis_data` or `None`); `engineCalled` whether line 232 was
reached; `finalPrompt` the local `AIAnalyzer` instance's `system_prompt`
field when the run ends (`none` when the instance was never built, line
184); `promptSent` the user prompt handed to the engine. -/
structure AnalyzeOutput where
  newFile : CacheFile
  returned : Option CacheRecord
  engineCalled : Bool
  finalPrompt : Option String
  promptSent : Option String
deriving DecidableEq, Repr

/-- `analyze` (lines 161-262).  `nowIso` is
`datetime.datetime.now().isoformat()` at the commit point (line 245);
`initPrompt` the `system_prompt` the `AIAnalyzer` constructor leaves on
the fresh instance; `promptFile` the content of `prompt.txt` when it
exists.  The engine outcome is an oracle parameter.  On the raised path
the `except` block (lines 259-262) returns `None` without running the
restore at line 240, so the override is left in place. -/
def analyze (parse : String → Option Date) (today : Date) (nowIso : String)
    (newsDb rssDb : Store) (initPrompt : String) (promptFile : Option String)
    (engine : EngineOutcome) (file : CacheFile) : AnalyzeOutput :=
  if has_analyzed_today parse today file then
    ⟨file, none, false, none, none⟩
  else
    let content := get_today_data newsDb rssDb
    if content.isEmpty then
      ⟨file, none, false, none, none⟩
    else
      let sys := select_system_prompt promptFile
      let up := user_prompt content
      match engine with
      | .success ct =>
        let r : CacheRecord := ⟨nowIso, [("full_analysis", ct)]⟩
        ⟨.record r, some r, true, some initPrompt, some up⟩
      | .failure _ =>
        ⟨file, none, true, some initPrompt, some up⟩
      | .raised =>
        ⟨file, none, true, some sys, some up⟩

/-- One display title of the standalone payload (lines 303-307). -/
structure Title where
  title : String
  time_display : String
  rank : Nat
deriving DecidableEq, Repr

/-- One platform entry of the standalone payload (lines 281-285). -/
structure Platform where
  platform_id : String
  platform_name : String
  titles : List Title
deriving DecidableEq, Repr

/-- `standalone_data` (lines 279-288): the display payload. -/
structure StandaloneData where
  platforms : List Platform
  rss_feeds : List String
deriving DecidableEq, Repr

/-- `generate_standalone_data` (lines 264-312).  `nowDisplay` is
`datetime.datetime.now().strftime("%Y-%m-%d %H:%M")`.  A missing file
returns `None` (line 266); an unreadable one raises inside the `try`
and returns `None` (lines 310-312); an empty/absent `result` object
returns `None` (lines 274-276); otherwise the analysis text is the
`full_analysis` field when present, else the three legacy sub-fields
joined by blank lines (lines 292-301), wrapped as the single title of
the single platform. -/
def generate_standalone_data (nowDisplay : String) : CacheFile → Option StandaloneData
  | .missing => none
  | .invalid => none
  | .record r =>
    if r.result.isEmpty then none
    else
      let analysis_text :=
        match r.result.lookup "full_analysis" with
        | some s => s
        | none =>
          String.intercalate "\n\n"
            [(r.result.lookup "core_trends").getD "",
             (r.result.lookup "sentiment_controversy").getD "",
             (r.result.lookup "outlook_strategy").getD ""]
      some ⟨[⟨"custom_analysis", "自定义分析", [⟨analysis_text, nowDisplay, 1⟩]⟩], []⟩

/-- Outcome of the external `dispatcher.dispatch_all(...)` call (line
341): it returns per-channel results (each channel's own success or
failure lives inside the returned list) or raises (caught at lines
349-351). -/
inductive DispatchOutcome where
  | returned : List (String × Bool) → DispatchOutcome
  | raised : DispatchOutcome
deriving DecidableEq, Repr

/-- What one run of `push_analysis` (lines 314-351) leaves behind:
the cache file after the run, whether the engine was invoked, the
projected payload (if any), whether `dispatch_all` was invoked, and the
Boolean return value. -/
structure PushOutput where
  newFile : CacheFile
  engineCalled : Bool
  payload : Option StandaloneData
  dispatched : Bool
  result : Bool
deriving DecidableEq, Repr

/-- `push_analysis` (lines 314-351): run `analyze`, then (on both
branches of the redundant `if`, lines 318-322) project the cache file
`analyze` left behind; with no payload return `False` without
dispatching (lines 324-326); otherwise call `dispatch_all` and return
`True` when it returns, `False` when it raises. -/
def push_analysis (parse : String → Option Date) (today : Date)
    (nowIso nowDisplay : String) (newsDb rssDb : Store)
    (initPrompt : String) (promptFile : Option String)
    (engine : EngineOutcome) (dispatch : DispatchOutcome)
    (file : CacheFile) : PushOutput :=
  let a := analyze parse today nowIso newsDb rssDb initPrompt promptFile engine file
  match generate_standalone_data nowDisplay a.newFile with
  | none => ⟨a.newFile, a.engineCalled, none, false, false⟩
  | some sd =>
    match dispatch with
    | .returned _ => ⟨a.newFile, a.engineCalled, some sd, true, true⟩
    | .raised => ⟨a.newFile, a.engineCalled, some sd, true, false⟩

/-! ### Helper lemmas -/

lemma bracket_line_ne_empty (a b : String) : ("[" ++ a ++ "] " ++ b) ≠ "" := by
  intro h
  have h2 := congrArg String.length h
  simp [String.length_append] at h2
  exact absurd h2.1.2 (by decide)

lemma isEmpty_false_of_ne_nil {α : Type} {l : List α} (h : l ≠ []) :
    l.isEmpty = false := by
  cases l with
  | nil => exact absurd rfl h
  | cons x xs => rfl

/-! ### The idempotency gate (claim C2) -/

/-- C2: `has_analyzed_today` returns true iff the cache file holds a
readable JSON record whose `last_analysis` field is non-empty, parses as
an ISO timestamp, and has today's local calendar date; in every other
cache-file state (missing file, unreadable bytes, missing/empty field,
unparseable timestamp, prior-day timestamp) it returns false — it is a
total Boolean function, so no error escapes. -/
theorem has_analyzed_today_iff (parse : String → Option Date) (today : Date)
    (file : CacheFile) :
    has_analyzed_today parse today file = true ↔
      ∃ r : CacheRecord, file = CacheFile.record r ∧ r.last_analysis ≠ "" ∧
        parse r.last_analysis = some today := by
  cases file with
  | missing => simp [has_analyzed_today]
  | invalid => simp [has_analyzed_today]
  | record r =>
    simp only [has_analyzed_today]
    by_cases h : r.last_analysis = ""
    · simp [h]
    · cases hp : parse r.last_analysis with
      | none => simp [h, hp]
      | some d => simp [h, hp]

/-! ### The schema-flexible store reader (claims C4, C9, C10) -/

/-- C4: when the first probed candidate table has a `title` column, the
reader emits, in row order, lines of the exact form `"[label] title"`
if the domain's peer label column is also present, and the bare title
text otherwise. -/
theorem reader_line_format (tables : List Table) (candidates : List String)
    (labelCol : String) (t : Table)
    (hp : firstProbed tables candidates = some t) (ht : "title" ∈ t.columns) :
    (labelCol ∈ t.columns →
      readStore (some tables) candidates labelCol =
        t.rows.map (fun r => "[" ++ r.label ++ "] " ++ r.title)) ∧
    (labelCol ∉ t.columns →
      readStore (some tables) candidates labelCol =
        t.rows.map (fun r => r.title)) := by
  simp only [readStore, hp, extractLines]
  constructor <;> intro hl <;> simp [ht, hl]

/-- C4 witness: a news store whose `news_items` table has `title` and
`source_name` columns yields `"[src] hello"`; dropping the label column
from the table yields bare `"hello"`. -/
theorem reader_line_format_witness :
    firstProbed [⟨"news_items", ["title", "source_name"], [⟨"hello", "src"⟩]⟩]
        newsCandidates = some (⟨"news_items", ["title", "source_name"], [⟨"hello", "src"⟩]⟩ : Table) ∧
      ("title" ∈ (["title", "source_name"] : List String)) ∧
      (("source_name" ∈ (["title", "source_name"] : List String) →
        readStore (some [⟨"news_items", ["title", "source_name"], [⟨"hello", "src"⟩]⟩])
            newsCandidates "source_name" =
          [⟨"hello", "src"⟩].map (fun r : Row => "[" ++ r.label ++ "] " ++ r.title)) ∧
       ("source_name" ∉ (["title", "source_name"] : List String) →
        readStore (some [⟨"news_items", ["title", "source_name"], [⟨"hello", "src"⟩]⟩])
            newsCandidates "source_name" =
          [⟨"hello", "src"⟩].map (fun r : Row => r.title))) :=
  ⟨by decide, by decide,
    reader_line_format [⟨"news_items", ["title", "source_name"], [⟨"hello", "src"⟩]⟩]
      newsCandidates "source_name"
      ⟨"news_items", ["title", "source_name"], [⟨"hello", "src"⟩]⟩
      (by decide) (by decide)⟩

/-- C9 counterexample: a store whose probed table has a `title` column
only and a row whose title is the empty string makes the reader emit a
line whose text is empty — empty before any whitespace stripping, so
certainly empty after it.  This refutes "every emitted line is non-empty
after trimming". -/
theorem reader_empty_line_cex :
    get_today_data (some [⟨"items", ["title"], [⟨"", ""⟩]⟩]) none = [""] ∧
      ("" : String).length = 0 :=
  ⟨by decide, by decide⟩

/-- C9 amended: every line emitted with a peer label is non-empty (it
carries the bracketed label); lines from a table without the label
column are the stored title verbatim, so they are only as non-empty as
the stored title itself. -/
theorem reader_labeled_lines_nonempty (tables : List Table)
    (candidates : List String) (labelCol : String) (t : Table)
    (hp : firstProbed tables candidates = some t) (ht : "title" ∈ t.columns) :
    (labelCol ∈ t.columns →
      ∀ s ∈ readStore (some tables) candidates labelCol, s ≠ "") ∧
    (labelCol ∉ t.columns →
      readStore (some tables) candidates labelCol =
        t.rows.map (fun r => r.title)) := by
  simp only [readStore, hp, extractLines]
  constructor
  · intro hl s hs
    simp [ht, hl] at hs
    obtain ⟨r, -, rfl⟩ := hs
    exact bracket_line_ne_empty _ _
  · intro hl
    simp [ht, hl]

/-- C9 witness: on a labeled news table with an empty title and an empty
label the emitted line `"[] "` is still non-empty. -/
theorem reader_labeled_lines_nonempty_witness :
    firstProbed [⟨"news_items", ["title", "source_name"], [⟨"", ""⟩]⟩]
        newsCandidates = some (⟨"news_items", ["title", "source_name"], [⟨"", ""⟩]⟩ : Table) ∧
      ("title" ∈ (["title", "source_name"] : List String)) ∧
      (("source_name" ∈ (["title", "source_name"] : List String) →
        ∀ s ∈ readStore (some [⟨"news_items", ["title", "source_name"], [⟨"", ""⟩]⟩])
          newsCandidates "source_name", s ≠ "") ∧
       ("source_name" ∉ (["title", "source_name"] : List String) →
        readStore (some [⟨"news_items", ["title", "source_name"], [⟨"", ""⟩]⟩])
            newsCandidates "source_name" =
          [⟨"", ""⟩].map (fun r : Row => r.title))) :=
  ⟨by decide, by decide,
    reader_labeled_lines_nonempty [⟨"news_items", ["title", "source_name"], [⟨"", ""⟩]⟩]
      newsCandidates "source_name"
      ⟨"news_items", ["title", "source_name"], [⟨"", ""⟩]⟩
      (by decide) (by decide)⟩

/-- C10: candidate probing stops at the first table that can be queried
at all; when that table has no `title` column the store contributes no
lines, whatever later candidate tables would have offered. -/
theorem first_probed_blocks_later (tables : List Table)
    (candidates : List String) (labelCol : String) (t : Table)
    (hp : firstProbed tables candidates = some t) (ht : "title" ∉ t.columns) :
    readStore (some tables) candidates labelCol = [] := by
  simp only [readStore, hp, extractLines]
  simp [ht]

/-- C10 witness: an RSS store holding a title-less `items` table and a
`titles` table that does have a `title` column and a row; `items` is the
earlier candidate, so the store contributes nothing. -/
theorem first_probed_blocks_later_witness :
    firstProbed [⟨"items", ["id"], []⟩, ⟨"titles", ["title"], [⟨"hello", ""⟩]⟩]
        rssCandidates = some (⟨"items", ["id"], []⟩ : Table) ∧
      ("title" ∉ (["id"] : List String)) ∧
      ("title" ∈ (["title"] : List String)) ∧
      readStore (some [⟨"items", ["id"], []⟩, ⟨"titles", ["title"], [⟨"hello", ""⟩]⟩])
        rssCandidates "feed_name" = [] :=
  ⟨by decide, by decide, by decide,
    first_probed_blocks_later [⟨"items", ["id"], []⟩, ⟨"titles", ["title"], [⟨"hello", ""⟩]⟩]
      rssCandidates "feed_name" ⟨"items", ["id"], []⟩ (by decide) (by decide)⟩

/-! ### The analysis orchestrator (claims C3, C5, C6, C8) -/

lemma analyze_of_gate (parse : String → Option Date) (today : Date)
    (nowIso : String) (newsDb rssDb : Store) (initPrompt : String)
    (promptFile : Option String) (engine : EngineOutcome) (file : CacheFile)
    (h : has_analyzed_today parse today file = true) :
    analyze parse today nowIso newsDb rssDb initPrompt promptFile engine file =
      ⟨file, none, false, none, none⟩ := by
  simp [analyze, h]

lemma analyze_engineCalled_iff (parse : String → Option Date) (today : Date)
    (nowIso : String) (newsDb rssDb : Store) (initPrompt : String)
    (promptFile : Option String) (engine : EngineOutcome) (file : CacheFile) :
    (analyze parse today nowIso newsDb rssDb initPrompt promptFile engine file).engineCalled = true ↔
      has_analyzed_today parse today file = false ∧
        get_today_data newsDb rssDb ≠ [] := by
  unfold analyze
  by_cases h1 : has_analyzed_today parse today file
  · simp [h1]
  · by_cases h2 : get_today_data newsDb rssDb = []
    · simp [h1, h2]
    · simp only [h1, Bool.false_eq_true, if_false, isEmpty_false_of_ne_nil h2]
      cases engine <;> simp [h1, h2]

lemma analyze_success_newFile (parse : String → Option Date) (today : Date)
    (nowIso : String) (newsDb rssDb : Store) (initPrompt : String)
    (promptFile : Option String) (ct : String) (file : CacheFile)
    (h : (analyze parse today nowIso newsDb rssDb initPrompt promptFile
        (EngineOutcome.success ct) file).engineCalled = true) :
    (analyze parse today nowIso newsDb rssDb initPrompt promptFile
        (EngineOutcome.success ct) file).newFile =
      CacheFile.record ⟨nowIso, [("full_analysis", ct)]⟩ := by
  obtain ⟨h1, h2⟩ := (analyze_engineCalled_iff parse today nowIso newsDb rssDb
    initPrompt promptFile (EngineOutcome.success ct) file).mp h
  unfold analyze
  simp [h1, isEmpty_false_of_ne_nil h2]

/-- C3: `analyze` persists nothing except after a successful engine
call: whenever the aggregated corpus is empty (in particular when both
store files are absent), or the engine reports failure, or the engine
call raises, the run returns `None` and leaves the cache file exactly
as it was. -/
theorem analyze_failure_paths_no_write (parse : String → Option Date)
    (today : Date) (nowIso : String) (newsDb rssDb : Store)
    (initPrompt : String) (promptFile : Option String)
    (engine : EngineOutcome) (file : CacheFile)
    (h : get_today_data newsDb rssDb = [] ∨
      (∃ e, engine = EngineOutcome.failure e) ∨ engine = EngineOutcome.raised) :
    (analyze parse today nowIso newsDb rssDb initPrompt promptFile engine file).returned = none ∧
      (analyze parse today nowIso newsDb rssDb initPrompt promptFile engine file).newFile = file := by
  unfold analyze
  by_cases h1 : has_analyzed_today parse today file
  · simp [h1]
  · rcases h with hc | ⟨e, he⟩ | he
    · simp [h1, hc]
    · subst he
      by_cases h2 : get_today_data newsDb rssDb = [] <;>
        simp [h1, h2, isEmpty_false_of_ne_nil]
    · subst he
      by_cases h2 : get_today_data newsDb rssDb = [] <;>
        simp [h1, h2, isEmpty_false_of_ne_nil]

/-- C3 witness: with both store files absent the corpus is empty, the
run returns `None` and a missing cache file stays missing. -/
theorem analyze_failure_paths_no_write_witness :
    (get_today_data none none = [] ∨
      (∃ e, EngineOutcome.failure "err" = EngineOutcome.failure e) ∨
      EngineOutcome.failure "err" = EngineOutcome.raised) ∧
    ((analyze (fun _ => none) ⟨2025, 1, 1⟩ "iso" none none "orig" none
        (EngineOutcome.failure "err") CacheFile.missing).returned = none ∧
      (analyze (fun _ => none) ⟨2025, 1, 1⟩ "iso" none none "orig" none
        (EngineOutcome.failure "err") CacheFile.missing).newFile = CacheFile.missing) :=
  ⟨Or.inl rfl,
    analyze_failure_paths_no_write (fun _ => none) ⟨2025, 1, 1⟩ "iso" none none
      "orig" none (EngineOutcome.failure "err") CacheFile.missing (Or.inl rfl)⟩

/-- C5: prompt truncation is a prefix operation: for a corpus of more
than 100 lines the first 100 lines, in order, are what the user prompt
is built from — the truncated list has length exactly 100, it is a
prefix of the corpus, and the prompt text built from the whole corpus
equals the prompt text built from that prefix alone. -/
theorem prompt_truncation_first_100 (content : List String)
    (h : 100 < content.length) :
    (content.take 100).length = 100 ∧
      content.take 100 <+: content ∧
      user_prompt content = user_prompt (content.take 100) := by
  refine ⟨?_, ⟨content.drop 100, List.take_append_drop 100 content⟩, ?_⟩
  · rw [List.length_take]
    omega
  · simp [user_prompt, content_str, List.take_take]

/-- C5 witness: a 150-line corpus. -/
theorem prompt_truncation_first_100_witness :
    100 < (List.replicate 150 "a").length ∧
      (((List.replicate 150 "a").take 100).length = 100 ∧
        (List.replicate 150 "a").take 100 <+: List.replicate 150 "a" ∧
        user_prompt (List.replicate 150 "a") =
          user_prompt ((List.replicate 150 "a").take 100)) :=
  ⟨by simp, prompt_truncation_first_100 (List.replicate 150 "a") (by simp)⟩

/-- C6: round-trip — whenever `analyze` commits a successful engine
result, reading the cache file it wrote back through
`generate_standalone_data` yields the payload with exactly one platform
entry whose single title text is the committed `full_analysis` string
verbatim, at rank 1. -/
theorem commit_project_roundtrip (parse : String → Option Date) (today : Date)
    (nowIso nowDisplay : String) (newsDb rssDb : Store) (initPrompt : String)
    (promptFile : Option String) (ct : String) (file : CacheFile)
    (h : (analyze parse today nowIso newsDb rssDb initPrompt promptFile
        (EngineOutcome.success ct) file).engineCalled = true) :
    generate_standalone_data nowDisplay
        (analyze parse today nowIso newsDb rssDb initPrompt promptFile
          (EngineOutcome.success ct) file).newFile =
      some ⟨[⟨"custom_analysis", "自定义分析", [⟨ct, nowDisplay, 1⟩]⟩], []⟩ := by
  rw [analyze_success_newFile parse today nowIso newsDb rssDb initPrompt
    promptFile ct file h]
  rfl

/-- C6 witness: a concrete successful run over a one-row news store. -/
theorem commit_project_roundtrip_witness :
    (analyze (fun _ => none) ⟨2025, 1, 1⟩ "iso"
        (some [⟨"news_items", ["title", "source_name"], [⟨"t", "s"⟩]⟩]) none
        "orig" none (EngineOutcome.success "CT") CacheFile.missing).engineCalled = true ∧
      generate_standalone_data "disp"
          (analyze (fun _ => none) ⟨2025, 1, 1⟩ "iso"
            (some [⟨"news_items", ["title", "source_name"], [⟨"t", "s"⟩]⟩]) none
            "orig" none (EngineOutcome.success "CT") CacheFile.missing).newFile =
        some ⟨[⟨"custom_analysis", "自定义分析", [⟨"CT", "disp", 1⟩]⟩], []⟩ :=
  ⟨by decide,
    commit_project_roundtrip (fun _ => none) ⟨2025, 1, 1⟩ "iso" "disp"
      (some [⟨"news_items", ["title", "source_name"], [⟨"t", "s"⟩]⟩]) none
      "orig" none "CT" CacheFile.missing (by decide)⟩

/-- C8 counterexample: when the engine call raises, the `except` block
returns without running the restore, so the engine instance's
`system_prompt` still holds the per-call override (here the built-in
default prompt), not the value `"orig"` it had before the invocation.
This refutes "the override is always restored on every path". -/
theorem prompt_override_left_on_raise_cex :
    (analyze (fun _ => none) ⟨2025, 1, 1⟩ "iso"
        (some [⟨"news_items", ["title", "source_name"], [⟨"t", "s"⟩]⟩]) none
        "orig" none EngineOutcome.raised CacheFile.missing).engineCalled = true ∧
      (analyze (fun _ => none) ⟨2025, 1, 1⟩ "iso"
          (some [⟨"news_items", ["title", "source_name"], [⟨"t", "s"⟩]⟩]) none
          "orig" none EngineOutcome.raised CacheFile.missing).finalPrompt =
        some defaultSystemPrompt ∧
      (analyze (fun _ => none) ⟨2025, 1, 1⟩ "iso"
          (some [⟨"news_items", ["title", "source_name"], [⟨"t", "s"⟩]⟩]) none
          "orig" none EngineOutcome.raised CacheFile.missing).finalPrompt ≠
        some "orig" := by
  refine ⟨by decide, by decide, by decide⟩

/-- C8 amended: the override is restored on the two non-raising paths —
after the engine returns, with success or with a reported failure, the
engine instance's `system_prompt` equals the value it had before the
invocation; on a raised exception the override is left in place (and the
instance is local to the call, so no later caller observes it). -/
theorem prompt_restored_without_raise (parse : String → Option Date)
    (today : Date) (nowIso : String) (newsDb rssDb : Store)
    (initPrompt : String) (promptFile : Option String)
    (engine : EngineOutcome) (file : CacheFile)
    (h1 : (analyze parse today nowIso newsDb rssDb initPrompt promptFile
        engine file).engineCalled = true)
    (h2 : engine ≠ EngineOutcome.raised) :
    (analyze parse today nowIso newsDb rssDb initPrompt promptFile
        engine file).finalPrompt = some initPrompt := by
  obtain ⟨hg, hc⟩ := (analyze_engineCalled_iff parse today nowIso newsDb rssDb
    initPrompt promptFile engine file).mp h1
  unfold analyze
  cases engine with
  | success ct => simp [hg, isEmpty_false_of_ne_nil hc]
  | failure e => simp [hg, isEmpty_false_of_ne_nil hc]
  | raised => exact absurd rfl h2

/-- C8 witness: a run whose engine reports failure still ends with the
original prompt `"orig"` on the engine instance. -/
theorem prompt_restored_without_raise_witness :
    (analyze (fun _ => none) ⟨2025, 1, 1⟩ "iso"
        (some [⟨"news_items", ["title", "source_name"], [⟨"t", "s"⟩]⟩]) none
        "orig" none (EngineOutcome.failure "err") CacheFile.missing).engineCalled = true ∧
      EngineOutcome.failure "err" ≠ EngineOutcome.raised ∧
      (analyze (fun _ => none) ⟨2025, 1, 1⟩ "iso"
          (some [⟨"news_items", ["title", "source_name"], [⟨"t", "s"⟩]⟩]) none
          "orig" none (EngineOutcome.failure "err") CacheFile.missing).finalPrompt =
        some "orig" :=
  ⟨by decide, by decide,
    prompt_restored_without_raise (fun _ => none) ⟨2025, 1, 1⟩ "iso"
      (some [⟨"news_items", ["title", "source_name"], [⟨"t", "s"⟩]⟩]) none
      "orig" none (EngineOutcome.failure "err") CacheFile.missing
      (by decide) (by decide)⟩

/-! ### The publication driver (claims C1, C7) -/

lemma push_newFile_eq (parse : String → Option Date) (today : Date)
    (nowIso nowDisplay : String) (newsDb rssDb : Store) (initPrompt : String)
    (promptFile : Option String) (engine : EngineOutcome)
    (dispatch : DispatchOutcome) (file : CacheFile) :
    (push_analysis parse today nowIso nowDisplay newsDb rssDb initPrompt
        promptFile engine dispatch file).newFile =
      (analyze parse today nowIso newsDb rssDb initPrompt promptFile
        engine file).newFile := by
  simp only [push_analysis]
  rcases hg : generate_standalone_data nowDisplay
      (analyze parse today nowIso newsDb rssDb initPrompt promptFile
        engine file).newFile with _ | sd <;>
    cases dispatch <;> simp [hg]

lemma push_engineCalled_eq (parse : String → Option Date) (today : Date)
    (nowIso nowDisplay : String) (newsDb rssDb : Store) (initPrompt : String)
    (promptFile : Option String) (engine : EngineOutcome)
    (dispatch : DispatchOutcome) (file : CacheFile) :
    (push_analysis parse today nowIso nowDisplay newsDb rssDb initPrompt
        promptFile engine dispatch file).engineCalled =
      (analyze parse today nowIso newsDb rssDb initPrompt promptFile
        engine file).engineCalled := by
  simp only [push_analysis]
  rcases hg : generate_standalone_data nowDisplay
      (analyze parse today nowIso newsDb rssDb initPrompt promptFile
        engine file).newFile with _ | sd <;>
    cases dispatch <;> simp [hg]

lemma push_dispatched_iff (parse : String → Option Date) (today : Date)
    (nowIso nowDisplay : String) (newsDb rssDb : Store) (initPrompt : String)
    (promptFile : Option String) (engine : EngineOutcome)
    (dispatch : DispatchOutcome) (file : CacheFile) :
    (push_analysis parse today nowIso nowDisplay newsDb rssDb initPrompt
        promptFile engine dispatch file).dispatched = true ↔
      generate_standalone_data nowDisplay
          (analyze parse today nowIso newsDb rssDb initPrompt promptFile
            engine file).newFile ≠ none := by
  simp only [push_analysis]
  rcases hg : generate_standalone_data nowDisplay
      (analyze parse today nowIso newsDb rssDb initPrompt promptFile
        engine file).newFile with _ | sd <;>
    cases dispatch <;> simp [hg]

lemma generate_of_committed (nowDisplay iso ct : String) :
    generate_standalone_data nowDisplay
        (CacheFile.record ⟨iso, [("full_analysis", ct)]⟩) =
      some ⟨[⟨"custom_analysis", "自定义分析", [⟨ct, nowDisplay, 1⟩]⟩], []⟩ := rfl

/-- C1: running `push_analysis` twice on the same calendar day, when the
first run invokes the engine and the engine succeeds (so its result is
committed), invokes the engine exactly once across the two runs — the
second run's idempotency check returns true and skips analysis — while
a dispatch attempt is made on both runs. -/
theorem publish_twice_single_engine_call (parse : String → Option Date)
    (today : Date) (nowIso₁ nowIso₂ nowDisplay₁ nowDisplay₂ : String)
    (newsDb₁ rssDb₁ newsDb₂ rssDb₂ : Store)
    (initPrompt₁ initPrompt₂ : String) (promptFile₁ promptFile₂ : Option String)
    (ct : String) (engine₂ : EngineOutcome)
    (dispatch₁ dispatch₂ : DispatchOutcome) (file : CacheFile)
    (hne : nowIso₁ ≠ "") (hparse : parse nowIso₁ = some today)
    (hcalled : (analyze parse today nowIso₁ newsDb₁ rssDb₁ initPrompt₁
        promptFile₁ (EngineOutcome.success ct) file).engineCalled = true) :
    let r1 := push_analysis parse today nowIso₁ nowDisplay₁ newsDb₁ rssDb₁
      initPrompt₁ promptFile₁ (EngineOutcome.success ct) dispatch₁ file
    let r2 := push_analysis parse today nowIso₂ nowDisplay₂ newsDb₂ rssDb₂
      initPrompt₂ promptFile₂ engine₂ dispatch₂ r1.newFile
    r1.engineCalled = true ∧ r1.dispatched = true ∧
      has_analyzed_today parse today r1.newFile = true ∧
      r2.engineCalled = false ∧ r2.dispatched = true := by
  intro r1 r2
  have hnew : r1.newFile = CacheFile.record ⟨nowIso₁, [("full_analysis", ct)]⟩ := by
    show (push_analysis parse today nowIso₁ nowDisplay₁ newsDb₁ rssDb₁
      initPrompt₁ promptFile₁ (EngineOutcome.success ct) dispatch₁ file).newFile = _
    rw [push_newFile_eq]
    exact analyze_success_newFile parse today nowIso₁ newsDb₁ rssDb₁
      initPrompt₁ promptFile₁ ct file hcalled
  have hgate : has_analyzed_today parse today r1.newFile = true := by
    rw [hnew]
    simp [has_analyzed_today, hne, hparse]
  have ha2 : analyze parse today nowIso₂ newsDb₂ rssDb₂ initPrompt₂
      promptFile₂ engine₂ r1.newFile = ⟨r1.newFile, none, false, none, none⟩ :=
    analyze_of_gate parse today nowIso₂ newsDb₂ rssDb₂ initPrompt₂
      promptFile₂ engine₂ r1.newFile hgate
  refine ⟨?_, ?_, hgate, ?_, ?_⟩
  · show (push_analysis parse today nowIso₁ nowDisplay₁ newsDb₁ rssDb₁
      initPrompt₁ promptFile₁ (EngineOutcome.success ct) dispatch₁ file).engineCalled = true
    rw [push_engineCalled_eq]
    exact hcalled
  · show (push_analysis parse today nowIso₁ nowDisplay₁ newsDb₁ rssDb₁
      initPrompt₁ promptFile₁ (EngineOutcome.success ct) dispatch₁ file).dispatched = true
    rw [push_dispatched_iff, push_newFile_eq] at *
    rw [show (analyze parse today nowIso₁ newsDb₁ rssDb₁ initPrompt₁
      promptFile₁ (EngineOutcome.success ct) file).newFile =
        CacheFile.record ⟨nowIso₁, [("full_analysis", ct)]⟩ from hnew]
    rw [generate_of_committed]
    simp
  · show (push_analysis parse today nowIso₂ nowDisplay₂ newsDb₂ rssDb₂
      initPrompt₂ promptFile₂ engine₂ dispatch₂ r1.newFile).engineCalled = false
    rw [push_engineCalled_eq, ha2]
  · show (push_analysis parse today nowIso₂ nowDisplay₂ newsDb₂ rssDb₂
      initPrompt₂ promptFile₂ engine₂ dispatch₂ r1.newFile).dispatched = true
    rw [push_dispatched_iff, ha2]
    show generate_standalone_data nowDisplay₂ r1.newFile ≠ none
    rw [hnew, generate_of_committed]
    simp

/-- C1 witness: a concrete pair of same-day runs — first run over a
one-row news store with a successful engine and a committed result,
second run with an engine oracle that would raise (it is never
consulted). -/
theorem publish_twice_single_engine_call_witness :
    ("2025-01-01T00:00:00" : String) ≠ "" ∧
    (fun s => if s = "2025-01-01T00:00:00" then some (⟨2025, 1, 1⟩ : Date) else none)
        "2025-01-01T00:00:00" = some ⟨2025, 1, 1⟩ ∧
    (analyze (fun s => if s = "2025-01-01T00:00:00" then some (⟨2025, 1, 1⟩ : Date) else none)
        ⟨2025, 1, 1⟩ "2025-01-01T00:00:00"
        (some [⟨"news_items", ["title", "source_name"], [⟨"t", "s"⟩]⟩]) none
        "p1" none (EngineOutcome.success "CT") CacheFile.missing).engineCalled = true ∧
    (let r1 := push_analysis
        (fun s => if s = "2025-01-01T00:00:00" then some (⟨2025, 1, 1⟩ : Date) else none)
        ⟨2025, 1, 1⟩ "2025-01-01T00:00:00" "d1"
        (some [⟨"news_items", ["title", "source_name"], [⟨"t", "s"⟩]⟩]) none
        "p1" none (EngineOutcome.success "CT") (DispatchOutcome.returned [])
        CacheFile.missing
     let r2 := push_analysis
        (fun s => if s = "2025-01-01T00:00:00" then some (⟨2025, 1, 1⟩ : Date) else none)
        ⟨2025, 1, 1⟩ "iso2" "d2" none none "p2" none EngineOutcome.raised
        (DispatchOutcome.returned []) r1.newFile
     r1.engineCalled = true ∧ r1.dispatched = true ∧
       has_analyzed_today
         (fun s => if s = "2025-01-01T00:00:00" then some (⟨2025, 1, 1⟩ : Date) else none)
         ⟨2025, 1, 1⟩ r1.newFile = true ∧
       r2.engineCalled = false ∧ r2.dispatched = true) :=
  ⟨by decide, by decide, by decide,
    publish_twice_single_engine_call
      (fun s => if s = "2025-01-01T00:00:00" then some (⟨2025, 1, 1⟩ : Date) else none)
      ⟨2025, 1, 1⟩ "2025-01-01T00:00:00" "iso2" "d1" "d2"
      (some [⟨"news_items", ["title", "source_name"], [⟨"t", "s"⟩]⟩]) none none none
      "p1" "p2" none none "CT" EngineOutcome.raised
      (DispatchOutcome.returned []) (DispatchOutcome.returned []) CacheFile.missing
      (by decide) (by decide) (by decide)⟩

/-- C7 counterexample: with a projectable cached record on disk and a
dispatcher whose `dispatch_all` raises, a dispatch attempt is made yet
`push_analysis` returns false — refuting "returns true if and only if a
dispatch attempt was made". -/
theorem push_false_after_dispatch_cex :
    (push_analysis (fun _ => none) ⟨2025, 1, 1⟩ "iso" "disp" none none "p" none
        EngineOutcome.raised DispatchOutcome.raised
        (CacheFile.record ⟨"", [("full_analysis", "t")]⟩)).dispatched = true ∧
      (push_analysis (fun _ => none) ⟨2025, 1, 1⟩ "iso" "disp" none none "p" none
        EngineOutcome.raised DispatchOutcome.raised
        (CacheFile.record ⟨"", [("full_analysis", "t")]⟩)).result = false := by
  refine ⟨by decide, by decide⟩

/-- C7 amended: `push_analysis` returns true iff a dispatch attempt was
made and the `dispatch_all` call itself returned rather than raised;
per-channel failures inside the returned results do not affect the
return value (the results list is arbitrary here); and when no payload
is obtainable it returns false with no dispatch attempted. -/
theorem push_result_characterization (parse : String → Option Date)
    (today : Date) (nowIso nowDisplay : String) (newsDb rssDb : Store)
    (initPrompt : String) (promptFile : Option String)
    (engine : EngineOutcome) (dispatch : DispatchOutcome) (file : CacheFile) :
    ((push_analysis parse today nowIso nowDisplay newsDb rssDb initPrompt
        promptFile engine dispatch file).result = true ↔
      ((push_analysis parse today nowIso nowDisplay newsDb rssDb initPrompt
          promptFile engine dispatch file).dispatched = true ∧
        dispatch ≠ DispatchOutcome.raised)) ∧
    ((push_analysis parse today nowIso nowDisplay newsDb rssDb initPrompt
        promptFile engine dispatch file).payload = none →
      (push_analysis parse today nowIso nowDisplay newsDb rssDb initPrompt
          promptFile engine dispatch file).dispatched = false ∧
        (push_analysis parse today nowIso nowDisplay newsDb rssDb initPrompt
          promptFile engine dispatch file).result = false) ∧
    ((push_analysis parse today nowIso nowDisplay newsDb rssDb initPrompt
        promptFile engine dispatch file).dispatched = true ↔
      (push_analysis parse today nowIso nowDisplay newsDb rssDb initPrompt
        promptFile engine dispatch file).payload ≠ none) := by
  simp only [push_analysis]
  rcases hg : generate_standalone_data nowDisplay
      (analyze parse today nowIso newsDb rssDb initPrompt promptFile
        engine file).newFile with _ | sd <;>
    cases dispatch <;> simp [hg]

end CustomAnalysis
